import Mathlib

/-!
Verification of the MSI-Explorer spectral data model and processing engine.

This file gives a shallow embedding of the spectral-processing core of the
MSI-Explorer repository (`_maldi_ms_data.py`, `_true_mean_spec.py`,
`_spectre_du_roi.py`) and proves, or refutes, the frozen claims about it.

The numeric helpers mirroring numpy/scipy routines are written polymorphically
over a linearly ordered field `K`; they are instantiated at `ℚ` where a claim
is settled by concrete evaluation, and at `ℝ` inside the stateful model of the
`Maldi_MS` class (whose `rms` normalization branch needs a real square root).
-/

namespace MsiExplorer

section NumericHelpers

variable {K : Type} [LinearOrderedField K] [FloorRing K]

/-- `np.mean` of a list: sum divided by length (empty list gives `0/0 = 0`). -/
def npMean (l : List K) : K := l.sum / l.length

/-- `np.min` of a list (junk value `0` on the empty list, where numpy raises). -/
def npMin : List K → K
  | [] => 0
  | x :: xs => xs.foldl min x

/-- `ndarray.max` of a list (junk value `0` on the empty list). -/
def npMax : List K → K
  | [] => 0
  | x :: xs => xs.foldl max x

/-- `np.median`: middle element of the sorted list, or the average of the two
middle elements for even length (junk value `0` on the empty list). -/
def npMedian (l : List K) : K :=
  let s := l.insertionSort (· ≤ ·)
  let n := s.length
  if n = 0 then 0
  else if n % 2 = 1 then s.getD (n / 2) 0
  else (s.getD (n / 2 - 1) 0 + s.getD (n / 2) 0) / 2

/-- `np.cumsum`: running sums, same length as the input. -/
def cumsum (l : List K) : List K := (l.scanl (· + ·) 0).tail

/-- `np.diff` on integer lists: consecutive differences, length one less. -/
def diffList (l : List ℤ) : List ℤ := (l.zip l.tail).map (fun p => p.2 - p.1)

/-- The 0/1 mask `(intensities != 0).astype(int)` from `centroid_data`. -/
def maskInt (ints : List K) : List ℤ := ints.map (fun x => if x = 0 then 0 else 1)

/-- `scipy.integrate.cumulative_trapezoid(intensities, x=mz, initial=0.0)`:
the running trapezoid-rule integral of `ints` against `mz`, starting at `0`. -/
def cumtrap (ints mz : List K) : List K :=
  let dx := (mz.zip mz.tail).map (fun p => p.2 - p.1)
  let avg := (ints.zip ints.tail).map (fun p => (p.1 + p.2) / 2)
  (List.zipWith (· * ·) dx avg).scanl (· + ·) 0

/-- `np.round` with numpy's round-half-to-even tie breaking, to an integer. -/
def roundHalfEven (x : K) : ℤ :=
  let n := ⌊x⌋
  if x - n < 1 / 2 then n
  else if x - n > 1 / 2 then n + 1
  else if Even n then n else n + 1

/-- `mz.round(4)`: round an m/z value to 4 decimal places. -/
def roundMz (x : K) : K := (roundHalfEven (x * 10000) : K) / 10000

end NumericHelpers

section Aggregation

variable {K : Type} [LinearOrderedField K] [FloorRing K]

/-- All `(roundMz mz, intensity)` pairs contributed by a list of spectra:
the concatenation step (`vaex.concat`) followed by `df.mz.round(4)` in
`get_true_mean_spec` / `spectre_du_roi`. A spectrum is a pair of equal-length
lists `(mz values, intensities)`. -/
def allPairs (spectra : List (List K × List K)) : List (K × K) :=
  ((spectra.map (fun sp => sp.1.zip sp.2)).flatten).map (fun p => (roundMz p.1, p.2))

/-- The distinct rounded m/z keys, sorted ascending: the group-by keys of
`df.groupby(df.mz, agg='sum', sort=True)`. -/
def aggKeys (ps : List (K × K)) : List K :=
  ((ps.map Prod.fst).insertionSort (· ≤ ·)).dedup

/-- The group-by-sum aggregation shared by `get_true_mean_spec` and
`spectre_du_roi`: round every m/z to 4 decimals, sum the intensities per
rounded-m/z bucket, and emit `(mz array, intensity array)` with the buckets
sorted by m/z ascending. -/
def aggregate (spectra : List (List K × List K)) : List K × List K :=
  let ps := allPairs spectra
  let ks := aggKeys ps
  (ks, ks.map (fun k => ((ps.filter (fun p => p.1 = k)).map Prod.snd).sum))

end Aggregation

section Centroiding

variable {K : Type} [LinearOrderedField K]

/-- The `start_indices` computed in `centroid_data`: positions `k` with
`diff[k] == 1` (the zero sample just before a non-zero run), with `0`
prepended when the first sample is already non-zero (`mask[0]`). -/
def startIndices (ints : List K) : List ℕ :=
  let d := diffList (maskInt ints)
  let s0 := (List.range d.length).filter (fun k => d.getD k 0 = 1)
  if (maskInt ints).getD 0 0 = 1 then 0 :: s0 else s0

/-- The `end_indices` computed in `centroid_data`: positions `k+1` with
`diff[k] == -1` (the zero sample just after a non-zero run), with `n-1`
appended when the last sample is non-zero (`mask[-1]`). -/
def endIndices (ints : List K) : List ℕ :=
  let d := diffList (maskInt ints)
  let e0 := ((List.range d.length).filter (fun k => d.getD k 0 = -1)).map (· + 1)
  if (maskInt ints).getD (ints.length - 1) 0 = 1 then e0 ++ [ints.length - 1] else e0

/-- The `centroid_numba` kernel: per run `[start, end]`, the centroid m/z is
`(csum(mz*int)[end] - csum(mz*int)[start]) / (csum(int)[end] - csum(int)[start])`
and the intensity is `quadrature[end] - quadrature[start]`. Out-of-range
indices read `0` (the Python code would raise instead; the claims only use
in-range inputs). -/
def centroid_numba (mz ints quadrature : List K) (starts ends : List ℕ) :
    List K × List K :=
  let cmi := cumsum (List.zipWith (· * ·) mz ints)
  let ci := cumsum ints
  ((starts.zip ends).map
     (fun p => (cmi.getD p.2 0 - cmi.getD p.1 0) / (ci.getD p.2 0 - ci.getD p.1 0)),
   (starts.zip ends).map (fun p => quadrature.getD p.2 0 - quadrature.getD p.1 0))

/-- One iteration of the `centroid_data` loop: run detection, cumulative
trapezoid integration, and the `centroid_numba` kernel, for one spectrum. -/
def centroid_spectrum (sp : List K × List K) : List K × List K :=
  centroid_numba sp.1 sp.2 (cumtrap sp.2 sp.1) (startIndices sp.2) (endIndices sp.2)

end Centroiding

section NormalizeTransforms

variable {K : Type} [LinearOrderedField K]

/-- The `'tic'` branch of `Maldi_MS.normalize`: divide every intensity by the
mean of the non-zero intensities. -/
def ticTransform (ints : List K) : List K :=
  let tic := npMean (ints.filter (· ≠ 0))
  ints.map (· / tic)

/-- The `'median'` branch of `Maldi_MS.normalize`: divide every intensity by
the median of the non-zero intensities. -/
def medianTransform (ints : List K) : List K :=
  let median1 := npMedian (ints.filter (· ≠ 0))
  ints.map (· / median1)

/-- The `'peak'` branch of `Maldi_MS.normalize`: scale by `100 / max` over
the window `[mz0 - tol, mz0 + tol]`, or by `0` when the window is empty or
its maximum is not positive. -/
def peakTransform (mz0 tol : K) (sp : List K × List K) : List K × List K :=
  let window := (sp.1.zip sp.2).filter (fun p => mz0 - tol ≤ p.1 ∧ p.1 ≤ mz0 + tol)
  let factor :=
    if window ≠ [] then
      let maximum := npMax (window.map Prod.snd)
      if 0 < maximum then 100 / maximum else 0
    else 0
  (sp.1, sp.2.map (· * factor))

/-- The `'rms'` branch of `Maldi_MS.normalize`: divide every intensity by the
root of the mean of the squares of the non-zero intensities (`np.sqrt`
forces the real-valued instantiation). -/
noncomputable def rmsTransform (ints : List ℝ) : List ℝ :=
  let rms := Real.sqrt (npMean ((ints.filter (· ≠ 0)).map (fun x => x ^ 2)))
  ints.map (· / rms)

/-- `np.percentile` with the default linear interpolation: sort, take the
virtual index `(n-1)*q/100`, and interpolate between its two neighbours. -/
def npPercentile [FloorRing K] (l : List K) (q : K) : K :=
  let s := l.insertionSort (· ≤ ·)
  let n := s.length
  if n = 0 then 0
  else
    let h := ((n : K) - 1) * q / 100
    let i := (⌊h⌋).toNat
    let lo := s.getD i 0
    let hi := s.getD (min (i + 1) (n - 1)) 0
    lo + (h - ⌊h⌋) * (hi - lo)

end NormalizeTransforms

/-- A spectrum as stored by `Maldi_MS`: the `[mz, intensities]` sublist. -/
abbrev Spectrum := List ℝ × List ℝ

/-- The mutable state of a `Maldi_MS` object: the raw spectra loaded from the
parser, the processed overlay `new_spectra`, the coordinate list, the two mode
flags, the normalization label and the cached spectrum count. -/
@[ext]
structure MaldiState where
  spectra : List Spectrum
  new_spectra : List Spectrum
  coordinates : List (ℤ × ℤ × ℤ)
  is_norm : Bool
  is_centroid : Bool
  norm_type : String
  num_spectra : ℕ

namespace MaldiState

/-- `Maldi_MS.check_i`: clamp an index into `[0, num_spectra - 1]`. -/
def check_i (s : MaldiState) (i : ℤ) : ℕ :=
  if i < 0 then 0
  else if (s.num_spectra : ℤ) ≤ i then s.num_spectra - 1
  else i.toNat

/-- `Maldi_MS.get_all_spectra`: the processed overlay when a mode flag is set,
the raw spectra otherwise. -/
def get_all_spectra (s : MaldiState) : List Spectrum :=
  if s.is_norm || s.is_centroid then s.new_spectra else s.spectra

/-- `Maldi_MS.get_spectrum`: clamp the index with `check_i`, then read the
overlay when a mode flag is set and the raw list otherwise. The result is
`none` exactly when the Python indexing would raise `IndexError`. -/
def get_spectrum? (s : MaldiState) (i : ℤ) : Option Spectrum :=
  let j := s.check_i i
  if s.is_norm || s.is_centroid then s.new_spectra[j]? else s.spectra[j]?

/-- `Maldi_MS.get_index`: position of `(x, y, 1)` in the coordinate list, or
`-1` when the coordinates are unknown. -/
def get_index (s : MaldiState) (y x : ℤ) : ℤ :=
  match s.coordinates.indexOf? (x, y, 1) with
  | some n => (n : ℤ)
  | none => -1

/-- `Maldi_MS.normalize`: reset the overlay, record the label, then fill the
overlay according to the method. Unknown methods leave the empty overlay and
the flags untouched (the Python `if/elif` chain has no final `else`). -/
noncomputable def normalize (norm : String) (mz0 tol : ℚ) (s : MaldiState) :
    MaldiState :=
  if norm = "original" then
    { s with new_spectra := [], norm_type := norm, is_norm := false }
  else if norm = "tic" then
    { s with new_spectra := s.spectra.map (fun sp => (sp.1, ticTransform sp.2)),
             norm_type := norm, is_norm := true }
  else if norm = "rms" then
    { s with new_spectra := s.spectra.map (fun sp => (sp.1, rmsTransform sp.2)),
             norm_type := norm, is_norm := true }
  else if norm = "median" then
    { s with new_spectra := s.spectra.map (fun sp => (sp.1, medianTransform sp.2)),
             norm_type := norm, is_norm := true }
  else if norm = "peak" then
    { s with new_spectra := s.spectra.map (fun sp => peakTransform (mz0 : ℝ) (tol : ℝ) sp),
             norm_type := norm ++ " " ++ toString mz0, is_norm := true }
  else
    { s with new_spectra := [], norm_type := norm }

/-- `Maldi_MS.get_percentile`: percentile of all intensities of the currently
authoritative spectra, with zeros removed unless the data are centroided. -/
noncomputable def get_percentile (s : MaldiState) (percentage : ℝ) : ℝ :=
  let spectra := if s.is_norm || s.is_centroid then s.new_spectra else s.spectra
  let all := (spectra.map Prod.snd).flatten
  let all := if s.is_centroid then all else all.filter (· ≠ 0)
  npPercentile all percentage

/-- `Maldi_MS.noise_reduction`: zero every non-zero intensity strictly below
the low percentile, writing back into the currently authoritative list. -/
noncomputable def noise_reduction (percentage : ℝ) (s : MaldiState) : MaldiState :=
  let limit := s.get_percentile percentage
  let tr := fun (ints : List ℝ) => ints.map (fun x => if x ≠ 0 ∧ x < limit then 0 else x)
  if s.is_norm || s.is_centroid then
    { s with new_spectra := s.new_spectra.map (fun sp => (sp.1, tr sp.2)) }
  else
    { s with spectra := s.spectra.map (fun sp => (sp.1, tr sp.2)) }

/-- `Maldi_MS.remove_hotspots`: clip every intensity above the high percentile
down to it, writing back into the currently authoritative list. -/
noncomputable def remove_hotspots (percentage : ℝ) (s : MaldiState) : MaldiState :=
  let limit := s.get_percentile percentage
  let tr := fun (ints : List ℝ) => ints.map (fun x => if limit < x then limit else x)
  if s.is_norm || s.is_centroid then
    { s with new_spectra := s.new_spectra.map (fun sp => (sp.1, tr sp.2)) }
  else
    { s with spectra := s.spectra.map (fun sp => (sp.1, tr sp.2)) }

/-- `Maldi_MS.check_centroid`: `True` immediately when `is_centroid` is set;
otherwise classify the raw spectrum at the middle index by its minimum and
median intensity, with no return value (`none`) when the minimum is negative
and the median is not positive. -/
noncomputable def check_centroid (s : MaldiState) : Option Bool :=
  if s.is_centroid then some true
  else
    let sp := s.spectra.getD (s.num_spectra / 2) ([], [])
    let min1 := npMin sp.2
    let median1 := npMedian sp.2
    if 0 < min1 ∨ (min1 = 0 ∧ median1 = 0) then some true
    else if 0 < median1 then some false
    else none

/-- `Maldi_MS.centroid_data`: centroid the normalized overlay when `is_norm`
is set and the raw spectra otherwise, store the result as the new overlay and
set `is_centroid`. -/
noncomputable def centroid_data (s : MaldiState) : MaldiState :=
  let old_spectra := if s.is_norm then s.new_spectra else s.spectra
  { s with new_spectra := old_spectra.map centroid_spectrum, is_centroid := true }

end MaldiState

/-- `get_true_mean_spec`: the whole-dataset aggregation, applied to the
currently authoritative spectra. -/
noncomputable def get_true_mean_spec (s : MaldiState) : List ℝ × List ℝ :=
  aggregate s.get_all_spectra

/-- `spectre_du_roi`: collect the indices of the spectra whose coordinates
occur in the ROI, raise `ValueError('The ROI is empty')` when none matches,
and otherwise aggregate the matching spectra. -/
noncomputable def spectre_du_roi (s : MaldiState) (roi : List (ℤ × ℤ)) :
    Except String (List ℝ × List ℝ) :=
  let index := ((roi.map (fun c => s.get_index c.1 c.2)).filter (fun i => 0 ≤ i)).insertionSort (· ≤ ·)
  if index = [] then .error "The ROI is empty"
  else
    let spectra := s.get_all_spectra
    .ok (aggregate (index.map (fun i => spectra.getD i.toNat ([], []))))

/-! ### Sample states used by witnesses and counterexamples -/

/-- A one-spectrum store as produced by the constructor: raw data only, no
overlay, both mode flags clear. -/
noncomputable def sampleRaw : MaldiState :=
  { spectra := [([1, 2], [0, 1])], new_spectra := [], coordinates := [(1, 1, 1)],
    is_norm := false, is_centroid := false, norm_type := "original", num_spectra := 1 }

/-- A freshly loaded store whose single raw spectrum has a negative
intensity. -/
noncomputable def sampleNeg : MaldiState :=
  { spectra := [([1], [-1])], new_spectra := [], coordinates := [(1, 1, 1)],
    is_norm := false, is_centroid := false, norm_type := "original", num_spectra := 1 }

/-! ### Claim C1 -/

/-- Claim C1 fails on the code: starting from a freshly loaded store, the
reachable call sequence `centroid_data(); normalize("tic")` produces a state
in which `is_norm` and `is_centroid` are both true — `normalize` never clears
`is_centroid`, contradicting both "clears isCentroided" and "at most one of
the two flags". -/
theorem C1_counterexample :
    (MaldiState.normalize "tic" 121.0444 0.003 sampleRaw.centroid_data).is_norm = true ∧
    (MaldiState.normalize "tic" 121.0444 0.003 sampleRaw.centroid_data).is_centroid = true := by
  constructor <;> rfl

/-- Claim C1, amended: after `normalize(m)` with `m` one of the four methods,
`is_norm` is true and `is_centroid` keeps its previous value (it is not
cleared), so both flags can drive the overlay simultaneously after a
`centroid_data` call. -/
theorem C1_normalize_flag_effect (s : MaldiState) (m : String) (mz0 tol : ℚ)
    (hm : m ∈ ["tic", "rms", "median", "peak"]) :
    (s.normalize m mz0 tol).is_norm = true ∧
    (s.normalize m mz0 tol).is_centroid = s.is_centroid := by
  fin_cases hm <;> exact ⟨rfl, rfl⟩

/-- Witness for `C1_normalize_flag_effect` at a concrete store and method. -/
theorem C1_normalize_flag_effect_witness :
    (sampleRaw.normalize "tic" 121.0444 0.003).is_norm = true ∧
    (sampleRaw.normalize "tic" 121.0444 0.003).is_centroid = sampleRaw.is_centroid :=
  C1_normalize_flag_effect sampleRaw "tic" 121.0444 0.003 (by decide)

/-! ### Claim C4 -/

/-- Claim C4 fails on the code: from a centroided state (reachable via
`centroid_data`), `normalize("tic")` followed by `normalize("original")`
leaves `is_centroid` set with an empty overlay, so `get_all_spectra()`
returns `[]` instead of the pre-normalization overlay. -/
theorem C4_counterexample :
    (MaldiState.normalize "original" 121.0444 0.003
        (MaldiState.normalize "tic" 121.0444 0.003 sampleRaw.centroid_data)).get_all_spectra ≠
      sampleRaw.centroid_data.get_all_spectra := by
  intro h
  have h1 : (MaldiState.normalize "original" 121.0444 0.003
      (MaldiState.normalize "tic" 121.0444 0.003 sampleRaw.centroid_data)).get_all_spectra =
      [] := rfl
  have h2 : sampleRaw.centroid_data.get_all_spectra =
      [centroid_spectrum ([1, 2], [0, 1])] := rfl
  rw [h1, h2] at h
  exact List.noConfusion h

/-- Claim C4, amended: starting from a store state with no active overlay
(`is_norm` and `is_centroid` both false), applying `normalize(m)` for one of
the four methods and then `normalize("original")` restores `get_all_spectra()`
bit-identically to its value before the `normalize(m)` call. -/
theorem C4_original_restores (s : MaldiState) (m : String) (mz0 tol mz0' tol' : ℚ)
    (h1 : s.is_norm = false) (h2 : s.is_centroid = false)
    (hm : m ∈ ["tic", "rms", "median", "peak"]) :
    (MaldiState.normalize "original" mz0' tol' (s.normalize m mz0 tol)).get_all_spectra =
      s.get_all_spectra := by
  fin_cases hm <;>
    simp [MaldiState.normalize, MaldiState.get_all_spectra, h1, h2]

/-- Witness for `C4_original_restores` at a concrete store and method. -/
theorem C4_original_restores_witness :
    (MaldiState.normalize "original" 121.0444 0.003
        (sampleRaw.normalize "tic" 121.0444 0.003)).get_all_spectra =
      sampleRaw.get_all_spectra :=
  C4_original_restores sampleRaw "tic" 121.0444 0.003 121.0444 0.003 rfl rfl (by decide)

/-! ### Claim C10 -/

/-- Claim C10 fails on the code: in a centroided state, `check_centroid`
returns `True` immediately without inspecting the middle raw spectrum, even
though that spectrum has a negative minimum and non-positive median (where
the claim demands that no boolean be returned). -/
theorem C10_counterexample :
    sampleNeg.centroid_data.check_centroid = some true ∧
    npMin (sampleNeg.centroid_data.spectra.getD
        (sampleNeg.centroid_data.num_spectra / 2) ([], [])).2 < 0 ∧
    npMedian (sampleNeg.centroid_data.spectra.getD
        (sampleNeg.centroid_data.num_spectra / 2) ([], [])).2 ≤ 0 := by
  refine ⟨rfl, ?_, ?_⟩
  · show npMin [(-1 : ℝ)] < 0
    norm_num [npMin]
  · show npMedian [(-1 : ℝ)] ≤ 0
    norm_num [npMedian, List.insertionSort, List.orderedInsert]

/-- Claim C10, amended: whenever `is_centroid` is clear, `check_centroid`
classifies the raw spectrum at the middle index — even when a normalization
overlay is active — returning `True` if its minimum intensity is positive or
minimum and median are both zero, `False` if its median is positive, and no
boolean (`none`) otherwise; when `is_centroid` is set it returns `True`
without inspecting any spectrum. -/
theorem C10_check_centroid_spec (s : MaldiState) (h : s.is_centroid = false) :
    s.check_centroid =
      (let sp := s.spectra.getD (s.num_spectra / 2) ([], []);
       if 0 < npMin sp.2 ∨ (npMin sp.2 = 0 ∧ npMedian sp.2 = 0) then some true
       else if 0 < npMedian sp.2 then some false
       else none) ∧
    (∀ t : MaldiState, t.spectra = s.spectra → t.num_spectra = s.num_spectra →
       t.is_centroid = false → t.check_centroid = s.check_centroid) := by
  constructor
  · simp [MaldiState.check_centroid, h]
  · intro t ht hn htc
    simp [MaldiState.check_centroid, h, htc, ht, hn]

/-- Witness for `C10_check_centroid_spec` at a concrete store. -/
theorem C10_check_centroid_spec_witness :
    sampleNeg.check_centroid =
      (let sp := sampleNeg.spectra.getD (sampleNeg.num_spectra / 2) ([], []);
       if 0 < npMin sp.2 ∨ (npMin sp.2 = 0 ∧ npMedian sp.2 = 0) then some true
       else if 0 < npMedian sp.2 then some false
       else none) :=
  (C10_check_centroid_spec sampleNeg rfl).1

/-! ### Claim C3 -/

/-- Claim C3 is right about the intended behaviour but the code breaks it on
a run that touches index 0: there `start_indices` holds `0`, an index inside
the run, and the cumulative-sum difference `csum[end] - csum[start]` drops the
term `mz[0] * intensity[0]`. For `mz = [1, 2, 3]`, `intensities = [5, 7, 0]`
the single run is `{0, 1}`: the claim's intensity-weighted mean is
`(1*5 + 2*7) / (5 + 7) = 19/12`, the claimed integral `19/2` is produced, but
the code outputs m/z `(2*7) / 7 = 2`. -/
theorem C3_centroid_edge_run_bug :
    (centroid_spectrum ([(1 : ℚ), 2, 3], [5, 7, 0])).1 = [2] ∧
    (centroid_spectrum ([(1 : ℚ), 2, 3], [5, 7, 0])).2 = [19 / 2] ∧
    ((List.zipWith (· * ·) [(1 : ℚ), 2, 3] [5, 7, 0]).take 2).sum /
        (([(5 : ℚ), 7, 0]).take 2).sum = 19 / 12 ∧
    (2 : ℚ) ≠ 19 / 12 := by
  with_unfolding_all decide

/-! ### Claim C2 -/

/-- The distinct group-by keys are sorted strictly ascending: insertion sort
gives a `≤`-sorted list, `dedup` keeps a nodup sublist of it. -/
theorem aggKeys_sorted {K : Type} [LinearOrderedField K] (ps : List (K × K)) :
    (aggKeys ps).Sorted (· < ·) := by
  have hs : ((ps.map Prod.fst).insertionSort (· ≤ ·)).Sorted (· ≤ ·) :=
    List.sorted_insertionSort _ _
  have hsub := List.dedup_sublist ((ps.map Prod.fst).insertionSort (· ≤ ·))
  exact List.Sorted.lt_of_le (List.Pairwise.sublist hsub hs) (List.nodup_dedup _)

/-- Every rounded m/z key occurring in the input occurs among the output
keys. -/
theorem aggKeys_complete {K : Type} [LinearOrderedField K] (ps : List (K × K))
    (p : K × K) (hp : p ∈ ps) : p.1 ∈ aggKeys ps := by
  unfold aggKeys
  exact List.mem_dedup.mpr
    ((List.perm_insertionSort _ _).mem_iff.mpr (List.mem_map_of_mem Prod.fst hp))

/-- Claim C2: whole-dataset aggregation rounds every m/z to 4 decimals, sums
the intensities per rounded-m/z bucket, and emits the buckets sorted by m/z
strictly ascending; on the three example spectra it returns exactly
`mz = [100, 101]`, `intensity = [8, 19]`. -/
theorem C2_aggregate_spec :
    (∀ spectra : List (List ℚ × List ℚ),
        ((aggregate spectra).1).Sorted (· < ·) ∧
        (aggregate spectra).2 =
          (aggregate spectra).1.map
            (fun k => (((allPairs spectra).filter (fun p => p.1 = k)).map Prod.snd).sum) ∧
        (∀ p ∈ allPairs spectra, p.1 ∈ (aggregate spectra).1)) ∧
    aggregate [([(100 : ℚ), 101], [5, 10]), ([100, 101], [3, 7]), ([101], [2])] =
      ([100, 101], [8, 19]) := by
  refine ⟨fun spectra => ⟨aggKeys_sorted _, rfl, fun p hp => aggKeys_complete _ p hp⟩, ?_⟩
  with_unfolding_all decide

/-- Witness for `C2_aggregate_spec`: the concrete example aggregation. -/
theorem C2_aggregate_spec_witness :
    aggregate [([(100 : ℚ), 101], [5, 10]), ([100, 101], [3, 7]), ([101], [2])] =
      ([100, 101], [8, 19]) :=
  C2_aggregate_spec.2

/-! ### Claim C5 -/

/-- `get_spectrum` always reads the currently authoritative list at the
`check_i`-clamped index. -/
theorem get_spectrum_eq_get_all (s : MaldiState) (i : ℤ) :
    s.get_spectrum? i = s.get_all_spectra[s.check_i i]? := by
  unfold MaldiState.get_spectrum? MaldiState.get_all_spectra
  cases hc : (s.is_norm || s.is_centroid) <;> simp [hc]

/-- `check_i` computes exactly the clamp `min (max i 0) (N - 1)`. -/
theorem check_i_eq_clamp (s : MaldiState) (N : ℕ) (hN : s.num_spectra = N)
    (h1 : 1 ≤ N) (i : ℤ) : s.check_i i = (min (max i 0) ((N : ℤ) - 1)).toNat := by
  unfold MaldiState.check_i
  rw [hN]
  split_ifs with h h' <;> omega

/-- Claim C5: for a store whose authoritative list has `N ≥ 1` entries,
`get_spectrum(i)` never raises and returns the entry at the clamped index
`min (max i 0) (N - 1)`; in particular `get_spectrum(-5)` agrees with
`get_spectrum(0)` and `get_spectrum(N + 100)` with `get_spectrum(N - 1)`. -/
theorem C5_get_spectrum_clamps (s : MaldiState) (N : ℕ)
    (hN : s.num_spectra = N) (h1 : 1 ≤ N)
    (hlen : s.get_all_spectra.length = N) :
    (∀ i : ℤ,
       s.get_spectrum? i = s.get_all_spectra[(min (max i 0) ((N : ℤ) - 1)).toNat]? ∧
       (s.get_spectrum? i).isSome = true) ∧
    s.get_spectrum? (-5) = s.get_spectrum? 0 ∧
    s.get_spectrum? ((N : ℤ) + 100) = s.get_spectrum? ((N : ℤ) - 1) := by
  have key : ∀ i : ℤ,
      s.get_spectrum? i = s.get_all_spectra[(min (max i 0) ((N : ℤ) - 1)).toNat]? := by
    intro i
    rw [get_spectrum_eq_get_all, check_i_eq_clamp s N hN h1]
  refine ⟨fun i => ⟨key i, ?_⟩, ?_, ?_⟩
  · rw [key i]
    have hlt : (min (max i 0) ((N : ℤ) - 1)).toNat < s.get_all_spectra.length := by
      rw [hlen]; omega
    rw [List.getElem?_eq_getElem hlt]
    rfl
  · have he : min (max (-5 : ℤ) 0) ((N : ℤ) - 1) = min (max (0 : ℤ) 0) ((N : ℤ) - 1) := by
      omega
    rw [key (-5), key 0, he]
  · have he : min (max ((N : ℤ) + 100) 0) ((N : ℤ) - 1) =
        min (max ((N : ℤ) - 1) 0) ((N : ℤ) - 1) := by
      omega
    rw [key ((N : ℤ) + 100), key ((N : ℤ) - 1), he]

/-- Witness for `C5_get_spectrum_clamps` on a one-spectrum store. -/
theorem C5_get_spectrum_clamps_witness :
    sampleRaw.get_spectrum? (-5) = sampleRaw.get_spectrum? 0 :=
  (C5_get_spectrum_clamps sampleRaw 1 rfl (by norm_num) rfl).2.1

/-! ### Claim C6 -/

/-- Dividing by a non-zero constant commutes with keeping the non-zero
entries. -/
theorem filter_ne_zero_map_div {K : Type} [LinearOrderedField K] (c : K)
    (hc : c ≠ 0) (l : List K) :
    (l.map (· / c)).filter (· ≠ 0) = (l.filter (· ≠ 0)).map (· / c) := by
  rw [List.filter_map]
  congr 1
  apply List.filter_congr
  intro x _
  simp [Function.comp, div_eq_zero_iff, hc]

/-- The sum of a list divided elementwise by `c` is the sum divided by `c`. -/
theorem sum_map_div {K : Type} [DivisionRing K] (l : List K) (c : K) :
    (l.map (· / c)).sum = l.sum / c := by
  induction l with
  | nil => simp
  | cons x xs ih => simp [ih, add_div]

/-- The mean of a list divided elementwise by `c` is the mean divided by
`c`. -/
theorem npMean_map_div {K : Type} [LinearOrderedField K] (l : List K) (c : K) :
    npMean (l.map (· / c)) = npMean l / c := by
  unfold npMean
  rw [List.length_map, sum_map_div, div_right_comm]

/-- A zero-preserving map keeps zero entries zero (with default `0` reads). -/
theorem getD_map_zero {K : Type} [LinearOrderedField K] (f : K → K)
    (hf : f 0 = 0) (l : List K) (k : ℕ) (h : l.getD k 0 = 0) :
    (l.map f).getD k 0 = 0 := by
  induction l generalizing k with
  | nil => simp
  | cons x xs ih =>
    cases k with
    | zero =>
      simp only [List.getD_cons_zero] at h
      simp [List.getD_cons_zero, h, hf]
    | succ n =>
      simp only [List.getD_cons_succ] at h
      simpa [List.getD_cons_succ] using ih n h

/-- Claim C6: after `normalize("tic")`, every spectrum whose intensity list
has a non-zero entry and a non-zero mean of its non-zero entries is replaced
by one whose non-zero intensities have mean exactly `1`, while every zero
intensity remains zero. -/
theorem C6_tic_mean_one (s : MaldiState) (mz0 tol : ℚ) (sp : Spectrum)
    (hmem : sp ∈ s.spectra)
    (h1 : sp.2.filter (· ≠ 0) ≠ [])
    (h2 : npMean (sp.2.filter (· ≠ 0)) ≠ 0) :
    (sp.1, ticTransform sp.2) ∈ (s.normalize "tic" mz0 tol).new_spectra ∧
    npMean ((ticTransform sp.2).filter (· ≠ 0)) = 1 ∧
    ∀ k : ℕ, sp.2.getD k 0 = 0 → (ticTransform sp.2).getD k 0 = 0 := by
  refine ⟨?_, ?_, ?_⟩
  · simp only [MaldiState.normalize, reduceIte]
    exact List.mem_map_of_mem _ hmem
  · unfold ticTransform
    rw [filter_ne_zero_map_div _ h2, npMean_map_div, div_self h2]
  · intro k hk
    simp only [ticTransform]
    exact getD_map_zero (fun x => x / npMean (sp.2.filter (· ≠ 0)))
      (zero_div _) sp.2 k hk

/-- Witness for `C6_tic_mean_one` on the spectrum `([1, 2], [0, 1])`. -/
theorem C6_tic_mean_one_witness :
    npMean ((ticTransform [(0 : ℝ), 1]).filter (· ≠ 0)) = 1 := by
  have hf : ([(0 : ℝ), 1].filter (· ≠ 0)) = [1] := by
    simp [List.filter_cons]
  exact (C6_tic_mean_one sampleRaw 121.0444 0.003 ([1, 2], [0, 1])
    (by simp [sampleRaw])
    (by rw [show (([1, 2], [0, 1]) : Spectrum).2 = [(0 : ℝ), 1] from rfl, hf]; simp)
    (by rw [show (([1, 2], [0, 1]) : Spectrum).2 = [(0 : ℝ), 1] from rfl, hf]
        norm_num [npMean])).2.1

/-! ### Claim C7 -/

/-- `get_index` returns `-1` or a non-negative position. -/
theorem get_index_cases (s : MaldiState) (y x : ℤ) :
    s.get_index y x = -1 ∨ 0 ≤ s.get_index y x := by
  unfold MaldiState.get_index
  cases s.coordinates.indexOf? (x, y, 1) <;> simp

/-- Insertion sort of a list is empty exactly when the list is. -/
theorem insertionSort_eq_nil_iff {α : Type} (r : α → α → Prop) [DecidableRel r]
    (l : List α) : l.insertionSort r = [] ↔ l = [] := by
  constructor
  · intro h
    have hp := List.perm_insertionSort r l
    rw [h] at hp
    exact (hp.symm).eq_nil
  · intro h
    subst h
    rfl

/-- Claim C7: ROI aggregation over coordinates that match no spectrum raises
exactly the `ValueError('The ROI is empty')` — independently of the stored
spectra, so no spectrum is read — and an `ok` result implies that some ROI
coordinate did match a spectrum. -/
theorem C7_roi_empty_error (s : MaldiState) (roi : List (ℤ × ℤ)) :
    (spectre_du_roi s roi = .error "The ROI is empty" ↔
       ∀ c ∈ roi, s.get_index c.1 c.2 = -1) ∧
    ((∀ c ∈ roi, s.get_index c.1 c.2 = -1) →
       ∀ t : MaldiState, t.coordinates = s.coordinates →
         spectre_du_roi t roi = .error "The ROI is empty") ∧
    (∀ r, spectre_du_roi s roi = .ok r → ∃ c ∈ roi, 0 ≤ s.get_index c.1 c.2) := by
  have hcond : ∀ t : MaldiState,
      (((roi.map (fun c => t.get_index c.1 c.2)).filter
          (fun i => 0 ≤ i)).insertionSort (· ≤ ·) = [] ↔
        ∀ c ∈ roi, t.get_index c.1 c.2 = -1) := by
    intro t
    rw [insertionSort_eq_nil_iff, List.filter_eq_nil_iff]
    constructor
    · intro h c hc
      rcases get_index_cases t c.1 c.2 with h1 | h1
      · exact h1
      · have := h _ (List.mem_map_of_mem (fun c => t.get_index c.1 c.2) hc)
        simp at this
        exact absurd h1 (not_le.mpr this)
    · intro h v hv
      obtain ⟨c, hc, rfl⟩ := List.mem_map.mp hv
      simp [h c hc]
  have hkey : ∀ t : MaldiState, t.coordinates = s.coordinates →
      ∀ c : ℤ × ℤ, t.get_index c.1 c.2 = s.get_index c.1 c.2 := by
    intro t ht c
    unfold MaldiState.get_index
    rw [ht]
  refine ⟨⟨?_, ?_⟩, ?_, ?_⟩
  · intro h
    apply (hcond s).mp
    by_contra hne
    simp only [spectre_du_roi] at h
    rw [if_neg hne] at h
    exact Except.noConfusion h
  · intro h
    simp only [spectre_du_roi]
    rw [if_pos ((hcond s).mpr h)]
  · intro h t ht
    simp only [spectre_du_roi]
    refine if_pos ((hcond t).mpr ?_)
    intro c hc
    rw [hkey t ht c]
    exact h c hc
  · intro r hr
    by_contra hno
    push_neg at hno
    have hall : ∀ c ∈ roi, s.get_index c.1 c.2 = -1 := by
      intro c hc
      rcases get_index_cases s c.1 c.2 with h1 | h1
      · exact h1
      · exact absurd h1 (not_le.mpr (hno c hc))
    simp only [spectre_du_roi] at hr
    rw [if_pos ((hcond s).mpr hall)] at hr
    exact Except.noConfusion hr

/-- Witness for `C7_roi_empty_error`: an ROI whose only coordinate matches
nothing produces the error. -/
theorem C7_roi_empty_error_witness :
    spectre_du_roi sampleRaw [((5 : ℤ), 5)] = .error "The ROI is empty" :=
  (C7_roi_empty_error sampleRaw [(5, 5)]).1.mpr (by
    intro c hc
    rw [List.mem_singleton] at hc
    subst hc
    rfl)

/-! ### Claim C8 -/

/-- The overlay produced by `normalize` only depends on the raw spectra. -/
theorem normalize_new_spectra_eq (m : String) (mz0 tol : ℚ) (s t : MaldiState)
    (h : t.spectra = s.spectra) :
    (t.normalize m mz0 tol).new_spectra = (s.normalize m mz0 tol).new_spectra := by
  unfold MaldiState.normalize
  split_ifs <;> simp [h]

/-- `normalize` gives the same result on a state whose overlay was replaced:
every branch overwrites `new_spectra` and reads only the other fields. -/
theorem normalize_ignores_overlay (m : String) (mz0 tol : ℚ) (s : MaldiState)
    (X : List Spectrum) :
    MaldiState.normalize m mz0 tol { s with new_spectra := X } =
      s.normalize m mz0 tol := by
  unfold MaldiState.normalize
  split_ifs <;> rfl

/-- Claim C8: `normalize(m)` for the four methods computes the overlay from
the raw spectra only; it is idempotent, and when an overlay is active any
`noise_reduction` / `remove_hotspots` edit to it is discarded by the next
`normalize` call. -/
theorem C8_normalize_reads_raw (s : MaldiState) (m : String) (mz0 tol : ℚ)
    (pct : ℝ) (hm : m ∈ ["tic", "rms", "median", "peak"]) :
    MaldiState.normalize m mz0 tol (s.normalize m mz0 tol) = s.normalize m mz0 tol ∧
    (∀ t : MaldiState, t.spectra = s.spectra →
       (t.normalize m mz0 tol).new_spectra = (s.normalize m mz0 tol).new_spectra) ∧
    ((s.is_norm || s.is_centroid) = true →
       MaldiState.normalize m mz0 tol (s.noise_reduction pct) = s.normalize m mz0 tol ∧
       MaldiState.normalize m mz0 tol (s.remove_hotspots pct) = s.normalize m mz0 tol) := by
  refine ⟨?_, fun t ht => normalize_new_spectra_eq m mz0 tol s t ht, fun h => ⟨?_, ?_⟩⟩
  · fin_cases hm <;> rfl
  · obtain ⟨X, hX⟩ : ∃ X, s.noise_reduction pct = { s with new_spectra := X } := by
      simp only [MaldiState.noise_reduction, h, reduceIte]
      exact ⟨_, rfl⟩
    rw [hX, normalize_ignores_overlay]
  · obtain ⟨X, hX⟩ : ∃ X, s.remove_hotspots pct = { s with new_spectra := X } := by
      simp only [MaldiState.remove_hotspots, h, reduceIte]
      exact ⟨_, rfl⟩
    rw [hX, normalize_ignores_overlay]

/-- Witness for `C8_normalize_reads_raw` at a concrete store and method. -/
theorem C8_normalize_reads_raw_witness :
    MaldiState.normalize "tic" 121.0444 0.003
        (sampleRaw.normalize "tic" 121.0444 0.003) =
      sampleRaw.normalize "tic" 121.0444 0.003 :=
  (C8_normalize_reads_raw sampleRaw "tic" 121.0444 0.003 0 (by decide)).1

/-! ### Claim C9 -/

/-- Claim C9: with both mode flags clear, `noise_reduction` and
`remove_hotspots` write their filtered intensity arrays back into the raw
spectra list, keeping every m/z array (the first components), the overlay,
the coordinates and both flags unchanged; afterwards
`normalize("original")` followed by `get_all_spectra` returns the filtered
spectra, not the originally loaded ones. -/
theorem C9_filters_write_raw (s : MaldiState) (pct pct2 : ℝ) (mz0 tol : ℚ)
    (h1 : s.is_norm = false) (h2 : s.is_centroid = false) :
    (s.noise_reduction pct).spectra =
        s.spectra.map (fun sp => (sp.1, sp.2.map
          (fun x => if x ≠ 0 ∧ x < s.get_percentile pct then 0 else x))) ∧
    (s.noise_reduction pct).new_spectra = s.new_spectra ∧
    (s.noise_reduction pct).coordinates = s.coordinates ∧
    (s.noise_reduction pct).is_norm = false ∧
    (s.noise_reduction pct).is_centroid = false ∧
    (s.remove_hotspots pct2).spectra =
        s.spectra.map (fun sp => (sp.1, sp.2.map
          (fun x => if s.get_percentile pct2 < x then s.get_percentile pct2 else x))) ∧
    (s.remove_hotspots pct2).new_spectra = s.new_spectra ∧
    (s.remove_hotspots pct2).coordinates = s.coordinates ∧
    (s.remove_hotspots pct2).is_norm = false ∧
    (s.remove_hotspots pct2).is_centroid = false ∧
    ((s.noise_reduction pct).normalize "original" mz0 tol).get_all_spectra =
      (s.noise_reduction pct).spectra := by
  refine ⟨?_, ?_, ?_, ?_, ?_, ?_, ?_, ?_, ?_, ?_, ?_⟩ <;>
    simp [MaldiState.noise_reduction, MaldiState.remove_hotspots,
          MaldiState.normalize, MaldiState.get_all_spectra, h1, h2]

/-- Witness for `C9_filters_write_raw` at a concrete store. -/
theorem C9_filters_write_raw_witness :
    (sampleRaw.noise_reduction 1).new_spectra = sampleRaw.new_spectra :=
  (C9_filters_write_raw sampleRaw 1 99 121.0444 0.003 rfl rfl).2.1

end MsiExplorer
